import Mathlib

/-!
Verification of the intelligence-hub event orchestration core.

Shallow embedding of the repository sources:
  src/core/models.py   — data model (enums, events, registrations, responses)
  src/events/bus.py    — EventBus (publish / subscribe / unsubscribe / history)
  src/core/service.py  — CoreIntelligenceService (router, orchestrator, synthesizer, stats)
  src/shared/context.py — SharedContext (task / conversation / behavior / insight views)

Modelling conventions:
  * Python UUIDs are modelled as natural numbers (only equality of ids matters).
  * Python `datetime` instants are modelled as integers (seconds); `timedelta(hours=1)`
    is 3600.
  * Python float literals such as 0.7 and 0.85 are modelled as exact rationals; for
    every concrete computation proved below the float computation and the rational
    one agree.
  * Python callbacks are compared by identity (list `in` / `remove`); they are
    modelled as numeric handler ids, with behavior supplied separately through an
    environment `HandlerId → IntelligenceEvent → Except String Unit`.
  * `EventType` and `ModuleType` are `str`-mixin enums: members compare and hash by
    their string value, so dict keys written as enum members and as value strings
    collide. Dict keys are therefore modelled by the value string.
  * Python dicts preserve insertion order; they are modelled as association lists
    with insert-or-replace-in-place semantics.
-/

/-- Enumeration `ModuleType` from src/core/models.py. -/
inductive ModuleType where
  | chat
  | tasks
  | insights
  | automation
  | third_party
deriving DecidableEq, Repr

/-- String value of a `ModuleType` member (str-mixin enum). -/
def ModuleType.value : ModuleType → String
  | .chat => "chat"
  | .tasks => "tasks"
  | .insights => "insights"
  | .automation => "automation"
  | .third_party => "third_party"

/-- Enumeration `EventType` from src/core/models.py, in declaration order. -/
inductive EventType where
  | task_created
  | task_updated
  | task_completed
  | message_received
  | message_sent
  | insight_generated
  | user_activity
  | module_registered
  | intelligence_response
deriving DecidableEq, Repr

/-- String value of an `EventType` member (str-mixin enum). -/
def EventType.value : EventType → String
  | .task_created => "task_created"
  | .task_updated => "task_updated"
  | .task_completed => "task_completed"
  | .message_received => "message_received"
  | .message_sent => "message_sent"
  | .insight_generated => "insight_generated"
  | .user_activity => "user_activity"
  | .module_registered => "module_registered"
  | .intelligence_response => "intelligence_response"

/-- All `EventType` members in declaration order, as Python iteration
`for event_type in EventType` yields them. -/
def EventType.all : List EventType :=
  [.task_created, .task_updated, .task_completed, .message_received, .message_sent,
   .insight_generated, .user_activity, .module_registered, .intelligence_response]

/-- Open key-value event payload. Only the keys the core reads are modelled; a
missing key is `none` (Python `payload.get(k, default)`). -/
structure Payload where
  task_id : Option String := none
  status : Option String := none
  content : Option String := none
  user_id : Option String := none
  activity_type : Option String := none
  insight : Option String := none
deriving DecidableEq, Repr

/-- `IntelligenceEvent` from src/core/models.py. -/
structure IntelligenceEvent where
  event_id : Nat
  event_type : EventType
  source_module : Nat
  timestamp : Int := 0
  payload : Payload := {}
deriving DecidableEq, Repr

/-- `ModuleRegistration` from src/core/models.py. -/
structure ModuleRegistration where
  module_id : Nat
  name : String
  module_type : ModuleType
  version : String := "1.0"
  description : String := ""
  endpoint : String := ""
  capabilities : List String
deriving DecidableEq, Repr

/-- Response payload of a module invocation. The dict is open; only the two keys
the synthesizer inspects (`key_insights`, `confidence`) are modelled, each
`none` when the key is absent. -/
structure ResponsePayload where
  key_insights : Option (List String) := none
  confidence : Option ℚ := none
deriving DecidableEq, Repr

/-- `ModuleResponse` from src/core/models.py. -/
structure ModuleResponse where
  module_id : Nat
  module_name : String
  response : ResponsePayload
  timestamp : Int := 0
deriving DecidableEq, Repr

/-! ### Relevance router (src/core/service.py, `_is_module_relevant` /
`_get_relevant_modules`) -/

/-- Fixed per-event-kind relevance-capability table from `_is_module_relevant`
(`relevance_map`). A kind absent from the Python dict maps to `none`;
`dict.get(event_type, set())` then yields the empty set. -/
def relevance_map : EventType → Option (List String)
  | .task_created => some ["task_management", "automation", "analysis"]
  | .message_received => some ["chat", "insights", "sentiment_analysis"]
  | .insight_generated => some ["insights", "knowledge_base", "analytics"]
  | .user_activity => some ["analytics", "insights", "automation"]
  | _ => none

/-- `_is_module_relevant`: a module is relevant iff it did not originate the event
and its capability set meets the event kind's relevance set
(`bool(module_capabilities & relevant_capabilities)`). -/
def is_module_relevant (module : ModuleRegistration) (event : IntelligenceEvent) : Bool :=
  if module.module_id == event.source_module then
    false
  else
    let relevant_capabilities := (relevance_map event.event_type).getD []
    module.capabilities.any (fun c => relevant_capabilities.contains c)

/-- `_get_relevant_modules`: filter the registered modules (dict values in
registration order) by relevance. -/
def get_relevant_modules (registered_modules : List ModuleRegistration)
    (event : IntelligenceEvent) : List ModuleRegistration :=
  registered_modules.filter (fun module => is_module_relevant module event)

/-- Claim C6: for every event and every registered module M, the router's result
never contains M when the event's source-module id equals M's module id
(self-exclusion). -/
theorem router_self_exclusion (registered_modules : List ModuleRegistration)
    (event : IntelligenceEvent) (M : ModuleRegistration)
    (h : M.module_id = event.source_module) :
    M ∉ get_relevant_modules registered_modules event := by
  intro hmem
  have hrel : is_module_relevant M event = true :=
    (List.mem_filter.mp hmem).2
  simp [is_module_relevant, h] at hrel

/-- Witness for C6: a concrete registry and event with matching source id; the
self-originated module is excluded. -/
theorem router_self_exclusion_witness :
    let M : ModuleRegistration :=
      { module_id := 7, name := "chat module", module_type := .chat,
        capabilities := ["chat"] }
    let event : IntelligenceEvent :=
      { event_id := 1, event_type := .message_received, source_module := 7 }
    M.module_id = event.source_module ∧ M ∉ get_relevant_modules [M] event := by
  exact ⟨by decide,
    router_self_exclusion _ _ _ (by decide)⟩

/-- Claim C7: for every event whose kind has no entry in the fixed
relevance-capability table, the router returns the empty module list (the
function is total: an unrouted kind is not an error). -/
theorem router_unmapped_kind_empty (registered_modules : List ModuleRegistration)
    (event : IntelligenceEvent) (h : relevance_map event.event_type = none) :
    get_relevant_modules registered_modules event = [] := by
  unfold get_relevant_modules
  rw [List.filter_eq_nil_iff]
  intro module _
  simp [is_module_relevant, h]

/-- Witness for C7: a concrete `intelligence_response` event admits no modules,
even against a registry with broad capabilities. -/
theorem router_unmapped_kind_empty_witness :
    let M : ModuleRegistration :=
      { module_id := 3, name := "insight module", module_type := .insights,
        capabilities := ["insights", "analytics", "chat", "task_management"] }
    let event : IntelligenceEvent :=
      { event_id := 2, event_type := .intelligence_response, source_module := 9 }
    relevance_map event.event_type = none ∧ get_relevant_modules [M] event = [] := by
  exact ⟨by decide, router_unmapped_kind_empty _ _ (by decide)⟩

/-! ### Event bus (src/events/bus.py) -/

/-- Python callbacks are compared by identity; a handler is modelled by a
numeric id, its behavior supplied separately by an environment. -/
abbrev HandlerId := Nat

/-- Lookup in a Python dict modelled as an insertion-ordered association list. -/
def dictGet {α : Type} (key : String) : List (String × α) → Option α
  | [] => none
  | (k, v) :: rest => if k = key then some v else dictGet key rest

/-- Insert-or-replace in a Python dict: an existing key keeps its position, a
new key is appended at the end. -/
def dictSet {α : Type} (key : String) (v : α) : List (String × α) → List (String × α)
  | [] => [(key, v)]
  | (k, w) :: rest => if k = key then (k, v) :: rest else (k, w) :: dictSet key v rest

/-- `EventBus` state from src/events/bus.py: per-kind subscriber lists keyed by
the event-type value string, bounded event history, capacity 1000. -/
structure EventBus where
  subscribers : List (String × List HandlerId) := []
  event_history : List IntelligenceEvent := []
  max_history : Nat := 1000
deriving DecidableEq, Repr

/-- `EventBus.subscribe`: create the kind's list if absent, then append the
callback (registration order). -/
def EventBus.subscribe (bus : EventBus) (event_type : String) (callback : HandlerId) :
    EventBus :=
  match dictGet event_type bus.subscribers with
  | none => { bus with subscribers := dictSet event_type [callback] bus.subscribers }
  | some callbacks =>
      { bus with subscribers := dictSet event_type (callbacks ++ [callback]) bus.subscribers }

/-- `EventBus.unsubscribe`: a missing kind is ignored silently, but for a present
kind Python `list.remove` raises `ValueError` when the callback is absent. -/
def EventBus.unsubscribe (bus : EventBus) (event_type : String) (callback : HandlerId) :
    Except String EventBus :=
  match dictGet event_type bus.subscribers with
  | none => .ok bus
  | some callbacks =>
      if callback ∈ callbacks then
        .ok { bus with subscribers := dictSet event_type (callbacks.erase callback) bus.subscribers }
      else
        .error "ValueError: list.remove(x): x not in list"

/-- Whether a Python call raised an exception. -/
def exceptFailed {α : Type} : Except String α → Bool
  | .ok _ => false
  | .error _ => true

/-- Result of one `publish` call: the new bus state, the history as subscribers
observe it while they run, and the callbacks invoked (in order) and failed. -/
structure PublishResult where
  bus : EventBus
  history_at_delivery : List IntelligenceEvent
  invoked : List HandlerId
  failed : List HandlerId
deriving Repr

/-- `EventBus.publish` from src/events/bus.py: the event is appended to history
and the oldest entry evicted when over capacity (lines 17-19) BEFORE the
subscriber loop runs (lines 21-27); every callback for the kind is awaited in
registration order, and an exception raised by a callback is caught, logged
and delivery continues, so `publish` itself always returns normally. -/
def EventBus.publish (env : HandlerId → IntelligenceEvent → Except String Unit)
    (bus : EventBus) (event : IntelligenceEvent) : PublishResult :=
  let appended := bus.event_history ++ [event]
  let new_history := if bus.max_history < appended.length then appended.drop 1 else appended
  let callbacks := (dictGet event.event_type.value bus.subscribers).getD []
  { bus := { bus with event_history := new_history }
    history_at_delivery := new_history
    invoked := callbacks
    failed := callbacks.filter (fun h => exceptFailed (env h event)) }

/-- Appending an element and then evicting the head when over a positive
capacity never drops the just-appended last element. -/
theorem mem_append_evict {α : Type} (hist : List α) (a : α) (max : Nat) (hpos : 0 < max) :
    a ∈ (if max < (hist ++ [a]).length then (hist ++ [a]).drop 1 else hist ++ [a]) := by
  by_cases hlt : max < (hist ++ [a]).length
  · rw [if_pos hlt]
    have hlen : 1 ≤ hist.length := by
      rcases hist with _ | ⟨b, rest⟩
      · simp at hlt; omega
      · simp
    rw [List.drop_append_of_le_length hlen]
    simp
  · rw [if_neg hlt]
    simp

/-- Claim C5 counterexample: with one registered subscriber for the kind, the
published event is already present in the history that subscribers observe
while they run, contradicting the claim that the append happens only after
delivery. -/
theorem publish_delivery_sees_event_cex :
    let bus : EventBus := { subscribers := [("task_created", [0])] }
    let event : IntelligenceEvent :=
      { event_id := 4, event_type := .task_created, source_module := 1 }
    let result := EventBus.publish (fun _ _ => .ok ()) bus event
    event ∈ result.history_at_delivery ∧ result.invoked = [0] := by
  decide

/-- Claim C5 (amended): `publish(event)` first appends the event to the bounded
history (evicting the oldest entry if at capacity) and only afterwards delivers
the event synchronously, in registration order, to every subscriber registered
for the event's kind; hence while any subscriber runs, the history already
contains the event being delivered. -/
theorem publish_appends_then_delivers
    (env : HandlerId → IntelligenceEvent → Except String Unit)
    (bus : EventBus) (event : IntelligenceEvent) (hcap : 0 < bus.max_history) :
    (EventBus.publish env bus event).history_at_delivery =
      (let appended := bus.event_history ++ [event]
       if bus.max_history < appended.length then appended.drop 1 else appended) ∧
    event ∈ (EventBus.publish env bus event).history_at_delivery ∧
    (EventBus.publish env bus event).invoked =
      (dictGet event.event_type.value bus.subscribers).getD [] ∧
    (EventBus.publish env bus event).bus.event_history =
      (EventBus.publish env bus event).history_at_delivery := by
  refine ⟨rfl, ?_, rfl, rfl⟩
  exact mem_append_evict bus.event_history event bus.max_history hcap

/-- Witness for amended C5 at a concrete bus with capacity 1000. -/
theorem publish_appends_then_delivers_witness :
    let bus : EventBus := { subscribers := [("message_received", [2, 5])] }
    let event : IntelligenceEvent :=
      { event_id := 6, event_type := .message_received, source_module := 3 }
    0 < bus.max_history ∧
    event ∈ (EventBus.publish (fun _ _ => .ok ()) bus event).history_at_delivery := by
  exact ⟨by decide,
    (publish_appends_then_delivers (fun _ _ => .ok ()) _ _ (by decide)).2.1⟩

/-- Claim C8: if any subscriber's callback raises during delivery, the error is
caught and every callback for the kind is still invoked, in order; `publish`
returns normally and the event is still recorded in the history. -/
theorem publish_tolerates_failing_subscriber
    (env : HandlerId → IntelligenceEvent → Except String Unit)
    (bus : EventBus) (event : IntelligenceEvent) (hcap : 0 < bus.max_history)
    (hfail : ∃ h ∈ (dictGet event.event_type.value bus.subscribers).getD [],
        exceptFailed (env h event) = true) :
    (EventBus.publish env bus event).invoked =
      (dictGet event.event_type.value bus.subscribers).getD [] ∧
    event ∈ (EventBus.publish env bus event).bus.event_history := by
  refine ⟨rfl, ?_⟩
  exact mem_append_evict bus.event_history event bus.max_history hcap

/-- Witness for C8: a concrete bus whose first subscriber raises; both callbacks
are still invoked and the event lands in history. -/
theorem publish_tolerates_failing_subscriber_witness :
    let bus : EventBus := { subscribers := [("task_created", [0, 1])] }
    let event : IntelligenceEvent :=
      { event_id := 8, event_type := .task_created, source_module := 2 }
    let env : HandlerId → IntelligenceEvent → Except String Unit :=
      fun h _ => if h = 0 then .error "boom" else .ok ()
    (0 < bus.max_history ∧
      ∃ h ∈ (dictGet event.event_type.value bus.subscribers).getD [],
        exceptFailed (env h event) = true) ∧
    (EventBus.publish env bus event).invoked = [0, 1] ∧
    event ∈ (EventBus.publish env bus event).bus.event_history := by
  refine ⟨⟨by decide, 0, by decide, by decide⟩, ?_⟩
  exact publish_tolerates_failing_subscriber _ _ _ (by decide) ⟨0, by decide, by decide⟩

/-- Claim C10: unsubscribe is asymmetric: a kind whose subscriber list exists
but lacks the callback raises (Python `list.remove` ValueError), while a kind
with no subscriber list at all returns silently with the table unchanged. -/
theorem unsubscribe_asymmetry (bus : EventBus) (event_type : String) (callback : HandlerId) :
    (∀ callbacks, dictGet event_type bus.subscribers = some callbacks →
      callback ∉ callbacks →
      ∃ msg, bus.unsubscribe event_type callback = .error msg) ∧
    (dictGet event_type bus.subscribers = none →
      bus.unsubscribe event_type callback = .ok bus) := by
  constructor
  · intro callbacks hsome hnot
    refine ⟨"ValueError: list.remove(x): x not in list", ?_⟩
    simp [EventBus.unsubscribe, hsome, hnot]
  · intro hnone
    simp [EventBus.unsubscribe, hnone]

/-- Witness for C10: callback 9 is not subscribed for `task_created` (callback 5
is), so removal errors; `message_sent` has no list at all, so removal is a
silent no-op. -/
theorem unsubscribe_asymmetry_witness :
    (∃ msg, EventBus.unsubscribe { subscribers := [("task_created", [5])] }
      "task_created" 9 = .error msg) ∧
    EventBus.unsubscribe { subscribers := [("task_created", [5])] }
      "message_sent" 9 = .ok { subscribers := [("task_created", [5])] } := by
  exact ⟨(unsubscribe_asymmetry { subscribers := [("task_created", [5])] }
            "task_created" 9).1 [5] (by decide) (by decide),
         (unsubscribe_asymmetry { subscribers := [("task_created", [5])] }
            "message_sent" 9).2 (by decide)⟩

/-! ### Fan-out/gather orchestrator (src/core/service.py,
`_orchestrate_module_processing`) -/

/-- Success-collection loop of `_orchestrate_module_processing` (lines 124-130):
walk the settled outcomes in input order, keep every non-exception response,
log and drop the failures. -/
def collect_successful : List (Except String ModuleResponse) → List ModuleResponse
  | [] => []
  | .ok response :: rest => response :: collect_successful rest
  | .error _ :: rest => collect_successful rest

/-- `_orchestrate_module_processing`: one task per selected module;
`asyncio.gather(*tasks, return_exceptions=True)` waits for every task to settle
and yields outcomes in the order of the input module list. Per-module
invocation is the opaque processing function of the spec, passed in as
`invoke`; this code path never touches the event bus, so the bus state is
threaded through unchanged. -/
def orchestrate_module_processing
    (invoke : ModuleRegistration → Except String ModuleResponse)
    (bus : EventBus) (modules : List ModuleRegistration) :
    List ModuleResponse × EventBus :=
  let responses := modules.map invoke
  (collect_successful responses, bus)

/-- The collection loop is exactly the order-preserving projection of the
successful outcomes. -/
theorem collect_successful_eq_filterMap (outcomes : List (Except String ModuleResponse)) :
    collect_successful outcomes = outcomes.filterMap Except.toOption := by
  induction outcomes with
  | nil => rfl
  | cons head rest ih =>
      cases head with
      | ok response => simp [collect_successful, Except.toOption, ih]
      | error msg => simp [collect_successful, Except.toOption, ih]

/-- Counting successes and failures partitions the module list. -/
theorem collect_successful_length (invoke : ModuleRegistration → Except String ModuleResponse)
    (modules : List ModuleRegistration) :
    (collect_successful (modules.map invoke)).length =
      modules.length - (modules.filter (fun m => exceptFailed (invoke m))).length := by
  induction modules with
  | nil => rfl
  | cons m rest ih =>
      have hrest : (rest.filter (fun m => exceptFailed (invoke m))).length ≤ rest.length :=
        List.length_filter_le _ _
      cases hm : invoke m with
      | ok response =>
          have hcond : exceptFailed (Except.ok response : Except String ModuleResponse) = false :=
            rfl
          simp only [List.map_cons, hm, collect_successful, List.length_cons, ih,
            List.filter_cons, hcond, Bool.false_eq_true, if_false]
          omega
      | error msg =>
          have hcond : exceptFailed (Except.error msg : Except String ModuleResponse) = true :=
            rfl
          simp only [List.map_cons, hm, collect_successful, ih,
            List.filter_cons, hcond, if_true, List.length_cons]
          omega

/-- Claim C4: for every event's selected module list of length n with k failing
invocations, the orchestrator settles every invocation and returns exactly the
n−k successful responses as the order-preserving projection of the input module
list (not completion order), and the bus state — in particular its event
history — is unchanged. -/
theorem orchestrator_partial_failure
    (invoke : ModuleRegistration → Except String ModuleResponse)
    (bus : EventBus) (modules : List ModuleRegistration) :
    (orchestrate_module_processing invoke bus modules).1.length =
      modules.length - (modules.filter (fun m => exceptFailed (invoke m))).length ∧
    (orchestrate_module_processing invoke bus modules).1 =
      (modules.map invoke).filterMap Except.toOption ∧
    (orchestrate_module_processing invoke bus modules).2 = bus := by
  refine ⟨collect_successful_length invoke modules, ?_, rfl⟩
  exact collect_successful_eq_filterMap (modules.map invoke)

/-! ### Insight synthesizer (src/core/service.py, `_generate_core_insights`) -/

/-- Python `round(x, 2)` rounds half to even at the second decimal. -/
def roundHalfEven (q : ℚ) : ℤ :=
  let f := ⌊q⌋
  let r := q - (f : ℚ)
  if r < 1 / 2 then f
  else if (1 : ℚ) / 2 < r then f + 1
  else if f % 2 = 0 then f else f + 1

/-- Round a rational to two decimal places, half to even. -/
def round2 (q : ℚ) : ℚ := (roundHalfEven (q * 100) : ℚ) / 100

/-- Rounding an integer value is the identity. -/
theorem roundHalfEven_intCast (n : ℤ) : roundHalfEven ((n : ℚ)) = n := by
  unfold roundHalfEven
  norm_num

/-- Aggregate produced by `_generate_core_insights`: either the explicit
empty-input marker dict or the synthesized-insights dict. -/
inductive CoreInsights where
  | noModules (message : String)
  | synthesized (synthesized_insights : List String) (average_confidence : ℚ)
      (modules_engaged : Nat) (consensus_level : String) (processing_time : String)
deriving DecidableEq, Repr

/-- Consensus-level field of the aggregate, when present. -/
def CoreInsights.consensus_level_val : CoreInsights → Option String
  | .noModules _ => none
  | .synthesized _ _ _ consensus _ => some consensus

/-- Average-confidence field of the aggregate, when present. -/
def CoreInsights.average_confidence_val : CoreInsights → Option ℚ
  | .noModules _ => none
  | .synthesized _ avg _ _ _ => some avg

/-- `_generate_core_insights`: empty input yields the explicit marker;
otherwise gather `key_insights` entries and `confidence` scalars over the
responses, average the confidences (0 if none), round to two decimals, and
classify consensus with the strict test `avg_confidence > 0.7`. CPython set
iteration order for `list(set(all_insights))[:5]` is unspecified; it is
modelled as first-occurrence deduplication — no claim below depends on it. -/
def generate_core_insights (responses : List ModuleResponse) : CoreInsights :=
  if responses.isEmpty then
    CoreInsights.noModules "No modules processed this event"
  else
    let all_insights := responses.flatMap (fun r => (r.response.key_insights).getD [])
    let all_confidences := responses.filterMap (fun r => r.response.confidence)
    let avg_confidence : ℚ :=
      if all_confidences.isEmpty then 0
      else all_confidences.sum / (all_confidences.length : ℚ)
    CoreInsights.synthesized (all_insights.eraseDups.take 5) (round2 avg_confidence)
      responses.length (if 7 / 10 < avg_confidence then "high" else "medium") "instant"

/-- Claim C1 counterexample: for exactly two responses carrying confidences 0.9
and 0.5 the average is exactly 0.7, the source classifies consensus with the
STRICT test `avg_confidence > 0.7`, and 0.7 > 0.7 fails, so the aggregate
reports consensus_level "medium", not "high" — the threshold is exclusive,
not inclusive. -/
theorem synthesizer_boundary_not_high_cex :
    (generate_core_insights
      [{ module_id := 1, module_name := "a", response := { confidence := some (9 / 10) } },
       { module_id := 2, module_name := "b",
         response := { confidence := some (1 / 2) } }]).consensus_level_val =
      some "medium" ∧ some "medium" ≠ some "high" := by
  constructor
  · unfold generate_core_insights
    simp only [List.isEmpty_cons, Bool.false_eq_true, if_false, List.flatMap_cons,
      List.flatMap_nil, List.filterMap_cons, List.filterMap_nil, Option.getD_none,
      List.append_nil, List.isEmpty_nil, List.length_cons, List.length_nil, List.sum_cons,
      List.sum_nil, List.eraseDups, List.take]
    norm_num [CoreInsights.consensus_level_val]
  · decide

/-- Claim C1 (amended): for exactly the two module responses carrying
confidences 0.9 and 0.5, the aggregate reports average_confidence = 0.70
(rounded to two decimal places) and consensus_level = "medium": the 0.7
threshold is exclusive (strict >), so "high" requires the average to strictly
exceed 0.7 — e.g. confidences 0.9 and 0.51 (average 0.705) yield "high". -/
theorem synthesizer_boundary_medium :
    generate_core_insights
      [{ module_id := 1, module_name := "a", response := { confidence := some (9 / 10) } },
       { module_id := 2, module_name := "b", response := { confidence := some (1 / 2) } }] =
      CoreInsights.synthesized [] (7 / 10) 2 "medium" "instant" ∧
    (generate_core_insights
      [{ module_id := 1, module_name := "a", response := { confidence := some (9 / 10) } },
       { module_id := 2, module_name := "b",
         response := { confidence := some (51 / 100) } }]).consensus_level_val =
      some "high" := by
  constructor
  · unfold generate_core_insights
    simp only [List.isEmpty_cons, Bool.false_eq_true, if_false, List.flatMap_cons,
      List.flatMap_nil, List.filterMap_cons, List.filterMap_nil, Option.getD_none,
      List.append_nil, List.isEmpty_nil, List.length_cons, List.length_nil, List.sum_cons,
      List.sum_nil, List.eraseDups, List.take]
    norm_num
    have h : (7 : ℚ) / 10 * 100 = ((70 : ℤ) : ℚ) := by norm_num
    rw [round2, h, roundHalfEven_intCast]
    norm_num
  · unfold generate_core_insights
    simp only [List.isEmpty_cons, Bool.false_eq_true, if_false, List.flatMap_cons,
      List.flatMap_nil, List.filterMap_cons, List.filterMap_nil, Option.getD_none,
      List.append_nil, List.isEmpty_nil, List.length_cons, List.length_nil, List.sum_cons,
      List.sum_nil, List.eraseDups, List.take]
    norm_num [CoreInsights.consensus_level_val]

/-! ### Module statistics (src/core/service.py, `get_module_stats`) -/

/-- Shape of the `get_module_stats` return dict. -/
structure ModuleStats where
  total_modules : Nat
  modules_by_type : List (String × Nat)
  active_capabilities : List String
deriving DecidableEq, Repr

/-- `get_module_stats` from src/core/service.py. The source iterates
`for module_type in EventType` — the EVENT-kind enumeration, not `ModuleType` —
when building `modules_by_type`, so the keys are the nine event-kind values,
and each membership test `m.module_type == module_type` compares a
`ModuleType` value string against an `EventType` value string (str-mixin enums
compare by value). `list(set(...))` for `active_capabilities` is modelled as
first-occurrence deduplication of the declared-capability union. -/
def get_module_stats (registered_modules : List ModuleRegistration) : ModuleStats :=
  { total_modules := registered_modules.length
    modules_by_type := EventType.all.map (fun event_type =>
      (event_type.value,
        (registered_modules.filter
          (fun m => m.module_type.value == event_type.value)).length))
    active_capabilities :=
      (registered_modules.flatMap (fun m => m.capabilities)).eraseDups }

/-- Claim C3 evaluated at the failing input: a registry holding exactly one
module of category "chat". The code returns `modules_by_type` keyed by the
nine event kinds with every count 0 (no `ModuleType` value string equals an
`EventType` value string), and the key "chat" is absent — not a map from each
module category to its count, which would be chat ↦ 1. Total count and the
capability union are as claimed. -/
theorem module_stats_keyed_by_event_kind :
    get_module_stats
      [{ module_id := 1, name := "chat module", module_type := ModuleType.chat,
         capabilities := ["chat", "conversation"] }] =
      { total_modules := 1
        modules_by_type :=
          [("task_created", 0), ("task_updated", 0), ("task_completed", 0),
           ("message_received", 0), ("message_sent", 0), ("insight_generated", 0),
           ("user_activity", 0), ("module_registered", 0), ("intelligence_response", 0)]
        active_capabilities := ["chat", "conversation"] } ∧
    "chat" ∉ (get_module_stats
      [{ module_id := 1, name := "chat module", module_type := ModuleType.chat,
         capabilities := ["chat", "conversation"] }]).modules_by_type.map Prod.fst := by
  constructor
  · rfl
  · decide

/-! ### Core service event ingestion (src/core/service.py, `initialize` /
`_handle_incoming_event`) -/

/-- Fresh bus as built by `get_event_bus` / `EventBus()`. -/
def EventBus.new : EventBus := {}

/-- `initialize` (service.py lines 22-26): subscribe the hub's single
`_handle_incoming_event` callback for EVERY member of `EventType` — including
`intelligence_response`. The Python subscription key is the enum member, which
as a str-mixin enum hashes and compares like its value string, so it is the
same dict slot `publish` later looks up. -/
def initialize_subscriptions (bus : EventBus) (handler : HandlerId) : EventBus :=
  EventType.all.foldl (fun b event_type => b.subscribe event_type.value handler) bus

/-- Response event built by `_handle_incoming_event` (lines 64-68): kind
`intelligence_response`, source id copied from the incoming event, payload the
serialized `IntelligenceResponse` (its content influences neither delivery nor
routing and is modelled as empty), id a fresh uuid4. -/
def response_event (event : IntelligenceEvent) (fresh_id : Nat) : IntelligenceEvent :=
  { event_id := fresh_id
    event_type := .intelligence_response
    source_module := event.source_module
    timestamp := event.timestamp
    payload := {} }

/-- Fuel-indexed nested synchronous delivery of `_handle_incoming_event`:
handling an event ends in `await publish(response_event)`, and `publish`
awaits every callback registered for the response kind before returning, so
whenever the hub callback is subscribed for `intelligence_response` the
handler re-enters itself on the response event. `some ()` means the nested
chain bottomed out; `none` means the fuel was exhausted with the chain still
active. -/
def handle_incoming_settles (bus : EventBus) (hub : HandlerId) :
    Nat → IntelligenceEvent → Option Unit
  | 0, _ => none
  | fuel + 1, event =>
      let resp := response_event event (event.event_id + 1)
      if hub ∈ (dictGet resp.event_type.value bus.subscribers).getD [] then
        handle_incoming_settles bus hub fuel resp
      else
        some ()

/-- Claim C2 refuted: after `initialize`, the hub callback IS registered for
`intelligence_response` (it subscribes to every kind), so the response event
the hub republishes is delivered back to the hub itself; for every fuel bound
the nested delivery chain is still active — the recursion is unbounded, the
process would recurse until the interpreter's recursion limit. -/
theorem hub_reacts_to_own_response_events :
    (dictGet (EventType.intelligence_response).value
        (initialize_subscriptions EventBus.new 0).subscribers).getD [] = [0] ∧
    ∀ fuel event,
      handle_incoming_settles (initialize_subscriptions EventBus.new 0) 0 fuel event =
        none := by
  refine ⟨by decide, ?_⟩
  intro fuel
  induction fuel with
  | zero => intro event; rfl
  | succ n ih =>
      intro event
      have hval : (response_event event (event.event_id + 1)).event_type.value =
          "intelligence_response" := rfl
      have hsub :
          (0 : HandlerId) ∈
            (dictGet "intelligence_response"
              (initialize_subscriptions EventBus.new 0).subscribers).getD [] := by
        decide
      simp only [handle_incoming_settles, hval]
      rw [if_pos hsub]
      exact ih (response_event event (event.event_id + 1))

/-! ### Shared context store (src/shared/context.py) -/

/-- Python `str.startswith`, computed on the character lists. -/
def strStartsWith (s p : String) : Bool := p.data.isPrefixOf s.data

/-- Value stored in `task_context` for one task id. `**event.payload` merges
payload keys over the base dict; of the resulting keys only these two are read
anywhere, and `status` ends up as `payload.get('status', 'unknown')`. -/
structure TaskInfo where
  last_activity : Int
  status : String
deriving DecidableEq, Repr

/-- Entry of the bounded conversation log. -/
structure ConversationEntry where
  timestamp : Int
  event_type : String
  source : Nat
  content : String
deriving DecidableEq, Repr

/-- Entry of the time-windowed insight cache. -/
structure CachedInsight where
  insight : Option String
  timestamp : Int
  source_module : Nat
deriving DecidableEq, Repr

/-- `SharedContext` state (context.py lines 8-14); `user_profiles` is declared
but never written or read and is omitted. -/
structure SharedContext where
  conversation_history : List ConversationEntry := []
  task_context : List (String × TaskInfo) := []
  behavior_patterns : List (String × List (String × Nat)) := []
  insight_cache : List (String × CachedInsight) := []
  last_updated : Int := 0
deriving DecidableEq, Repr

/-- `_update_task_context`: insert or update the entry for
`payload.get('task_id', 'unknown')`. -/
def update_task_context (now : Int) (event : IntelligenceEvent) (ctx : SharedContext) :
    SharedContext :=
  let task_id := event.payload.task_id.getD "unknown"
  let info : TaskInfo :=
    { last_activity := now, status := event.payload.status.getD "unknown" }
  { ctx with task_context := dictSet task_id info ctx.task_context }

/-- `_update_conversation_context`: append an entry, then evict the oldest when
the log exceeds 100 entries. -/
def update_conversation_context (now : Int) (event : IntelligenceEvent)
    (ctx : SharedContext) : SharedContext :=
  let entry : ConversationEntry :=
    { timestamp := now, event_type := event.event_type.value,
      source := event.source_module, content := event.payload.content.getD "" }
  let appended := ctx.conversation_history ++ [entry]
  { ctx with conversation_history :=
      if 100 < appended.length then appended.drop 1 else appended }

/-- `_update_user_behavior`: increment the per-user tally for
`payload.get('activity_type', 'unknown')`, creating missing levels with 0. -/
def update_user_behavior (event : IntelligenceEvent) (ctx : SharedContext) :
    SharedContext :=
  let user_id := event.payload.user_id.getD "default"
  let activity_type := event.payload.activity_type.getD "unknown"
  let user_map := (dictGet user_id ctx.behavior_patterns).getD []
  let count := (dictGet activity_type user_map).getD 0
  { ctx with behavior_patterns :=
      dictSet user_id (dictSet activity_type (count + 1) user_map) ctx.behavior_patterns }

/-- `_update_insight_cache`: store the new entry under the key
`f"{source}_{now}"`, then purge every cache entry whose timestamp is NOT
strictly later than one hour before now. The purge lives only here. -/
def update_insight_cache (now : Int) (event : IntelligenceEvent) (ctx : SharedContext) :
    SharedContext :=
  let insight_key := toString event.source_module ++ "_" ++ toString now
  let entry : CachedInsight :=
    { insight := event.payload.insight, timestamp := now,
      source_module := event.source_module }
  let cache := dictSet insight_key entry ctx.insight_cache
  let cutoff_time := now - 3600
  { ctx with insight_cache := cache.filter (fun p => cutoff_time < p.2.timestamp) }

/-- `update_from_event` (context.py lines 16-27): stamp `last_updated`, then
dispatch on the event-kind value string: `task_` events mutate task context,
`message_` events the conversation log, `user_activity` the behavior tallies,
`insight_generated` the insight cache; every other kind mutates nothing. -/
def update_from_event (now : Int) (event : IntelligenceEvent) (ctx : SharedContext) :
    SharedContext :=
  let ctx := { ctx with last_updated := now }
  if strStartsWith event.event_type.value "task_" then
    update_task_context now event ctx
  else if strStartsWith event.event_type.value "message_" then
    update_conversation_context now event ctx
  else if event.event_type.value == "user_activity" then
    update_user_behavior event ctx
  else if event.event_type.value == "insight_generated" then
    update_insight_cache now event ctx
  else ctx

/-- Claim C9 counterexample: a task_created write one hour and more after a
stale insight entry leaves the stale entry in the cache — the purge runs only
inside `_update_insight_cache`, which a task write never reaches, so the
purge-on-write law over the whole store fails. -/
theorem insight_cache_stale_after_task_write_cex :
    (("old", { insight := none, timestamp := 0, source_module := 2 }) :
        String × CachedInsight) ∈
      (update_from_event 100000
        { event_id := 11, event_type := .task_created, source_module := 2,
          payload := { task_id := some "t1" } }
        { insight_cache :=
            [("old", { insight := none, timestamp := 0, source_module := 2 })] }).insight_cache ∧
    (0 : Int) < 100000 - 3600 := by
  decide

/-- Dispatch lemma: an `insight_generated` event reaches
`_update_insight_cache`. -/
theorem update_from_event_insight_generated (now : Int) (event : IntelligenceEvent)
    (ctx : SharedContext) (hkind : event.event_type = .insight_generated) :
    update_from_event now event ctx =
      update_insight_cache now event { ctx with last_updated := now } := by
  unfold update_from_event
  rw [hkind]
  have h1 : strStartsWith (EventType.value .insight_generated) "task_" = false := by decide
  have h2 : strStartsWith (EventType.value .insight_generated) "message_" = false := by decide
  have h3 : (EventType.value .insight_generated == "user_activity") = false := by decide
  have h4 : (EventType.value .insight_generated == "insight_generated") = true := by decide
  simp only [h1, h2, h3, h4, Bool.false_eq_true, if_false, if_true]

/-- Claim C9 (amended): the purge-on-write law holds for insight-cache writes:
after `update_from_event` on any `insight_generated` event, the insight cache
holds no entry timestamped one hour or more before that write (the source
keeps exactly the entries with `timestamp > now - 1 hour`). Writes of other
kinds do not purge the cache. -/
theorem insight_cache_purged_on_insight_write (ctx : SharedContext)
    (event : IntelligenceEvent) (now : Int)
    (hkind : event.event_type = .insight_generated) :
    ∀ entry ∈ (update_from_event now event ctx).insight_cache,
      now - 3600 < entry.2.timestamp := by
  intro entry hmem
  rw [update_from_event_insight_generated now event ctx hkind] at hmem
  unfold update_insight_cache at hmem
  simp only [List.mem_filter, decide_eq_true_eq] at hmem
  exact hmem.2

/-- Witness for amended C9: a concrete insight write at time 5000 over a cache
holding a stale entry from time 0; every surviving entry is younger than one
hour. -/
theorem insight_cache_purged_on_insight_write_witness :
    ((update_from_event 5000
        { event_id := 12, event_type := .insight_generated, source_module := 2,
          payload := { insight := some "pattern detected" } }
        { insight_cache :=
            [("old", { insight := none, timestamp := 0, source_module := 2 })] }).insight_cache.all
      (fun p => decide ((5000 : Int) - 3600 < p.2.timestamp))) = true := by
  apply List.all_eq_true.mpr
  intro p hp
  exact decide_eq_true (insight_cache_purged_on_insight_write _ _ 5000 rfl p hp)
